import Mathlib

/-!
Verification development for the hoe-dex-protection pool program.

The program is shallowly embedded: `u64` values become `Nat` together with
explicit checked/saturating arithmetic on the `2^64` bound, `i64` timestamps
become `Int`, account addresses (`Pubkey`) become `Nat`, and every fallible
instruction handler becomes a function into `Except ErrorCode _` returning the
updated `PoolState` (the hosting runtime commits state only on `ok`, so an
`error` result models a transaction whose mutations are all discarded).
External token transfers are recorded as an explicit list of transfer records
(source, destination, amount) produced by the operations that move funds.

The embedded `PoolState` and its operations follow the feature-complete
variant in `src/lib.rs` (the struct at the bottom of that file together with
its `impl` block and the `#[program]` handlers); where the repository's
superseded draft modules (`types.rs`, parts of `utils.rs`/`validation.rs`)
disagree with it, the `lib.rs` variant is taken as canonical, and each such
spot is noted in a comment at the definition it affects.
-/

namespace HoeDex

/-- The value `2^64`, the modulus of the `u64` machine integers used by the program. -/
def U64_MOD : Nat := 2 ^ 64

/-- Rust `u64::checked_add`. -/
def checkedAdd (a b : Nat) : Option Nat :=
  if a + b < U64_MOD then some (a + b) else none

/-- Rust `u64::checked_sub`. -/
def checkedSub (a b : Nat) : Option Nat :=
  if b ≤ a then some (a - b) else none

/-- Rust `u64::checked_mul`. -/
def checkedMul (a b : Nat) : Option Nat :=
  if a * b < U64_MOD then some (a * b) else none

/-- Rust `u64::checked_div` (fails only on a zero divisor). -/
def checkedDiv (a b : Nat) : Option Nat :=
  if b = 0 then none else some (a / b)

/-- Rust `u64::saturating_mul`. -/
def satMul (a b : Nat) : Nat := min (a * b) (U64_MOD - 1)

/-- Rust `i64::checked_sub` (fails only when the difference leaves the
`i64` range). -/
def checkedSubI64 (a b : Int) : Option Int :=
  if -(2 ^ 63) ≤ a - b ∧ a - b < 2 ^ 63 then some (a - b) else none

/-- Lift an `Option` into `Except`, with `e` on `none`
(Rust `ok_or` / `ok_or_else`). -/
def okOr (e : ε) : Option α → Except ε α
  | some a => .ok a
  | none => .error e

instance {ε α : Type _} [DecidableEq ε] [DecidableEq α] : DecidableEq (Except ε α) :=
  fun x y =>
    match x, y with
    | .ok a, .ok b =>
        if h : a = b then isTrue (by rw [h]) else isFalse (by simp [h])
    | .error a, .error b =>
        if h : a = b then isTrue (by rw [h]) else isFalse (by simp [h])
    | .ok _, .error _ => isFalse (by simp)
    | .error _, .ok _ => isFalse (by simp)

-- Constants from src/constants.rs.
def MINIMUM_FEE_BPS : Nat := 1
def MINIMUM_FEE : Nat := 1
def EMERGENCY_TIMELOCK_SECONDS : Nat := 3600
def PARAMETER_UPDATE_TIMELOCK : Nat := 86400
def FEE_MODE_NONE : Nat := 0
def FEE_MODE_EARLY_TRADE : Nat := 1
/-- Source `lib.rs` names this mode `FEE_MODE_TIER_BASED`; `constants.rs` defines the
value `2` under the name `FEE_MODE_VOLUME_BASED`. -/
def FEE_MODE_TIER_BASED : Nat := 2
def MAX_FEE_TIERS : Nat := 100
def MAX_BLACKLIST_SIZE : Nat := 1000
def BATCH_BLACKLIST_MAX_SIZE : Nat := 50
/-- Source `MAXIMUM_FEE_BPS` is referenced by `PoolState::validate_fee_tiers` but is
not defined in `src/constants.rs`; 10000 (100%) is used here. None of the
theorems below depend on its value. -/
def MAXIMUM_FEE_BPS : Nat := 10000

/-- Addresses (`Pubkey`) are opaque identities; only equality matters. -/
abbrev Addr := Nat

/-- Error codes, from src/errors.rs plus the extra variants that `lib.rs`
uses directly (`SlippageExceeded`, `NoPendingUpdate`, `InsufficientLiquidity`,
`NoFeesAvailable`, `InvalidNewAdmin`, `FeeTiersNotLocked`,
`InvalidTokenAccount`, `InvalidParameterRelationship`). -/
inductive ErrorCode where
  | Unauthorized
  | InvalidAmount
  | InvalidTokenAccount
  | InvalidTokenMint
  | InvalidFeeTier
  | InvalidTimestamp
  | RateLimitExceeded
  | CircuitBreakerTriggered
  | Overflow
  | PoolPaused
  | EmergencyPaused
  | PoolFinalized
  | FeeTiersLocked
  | FeeTiersNotLocked
  | TooManyFeeTiers
  | InvalidFeeTierSpacing
  | FeeTooHigh
  | FeeTooLow
  | DuplicateFeeTierThreshold
  | InvalidEmergencyAdmin
  | OperationFailed
  | TimelockNotExpired
  | DailyVolumeLimitExceeded
  | PriceImpactTooHigh
  | PoolNotPaused
  | CircuitBreakerCooldown
  | SlippageExceeded
  | NoPendingUpdate
  | InsufficientLiquidity
  | NoFeesAvailable
  | InvalidNewAdmin
  | InvalidParameterRelationship
  deriving DecidableEq, Repr

/-- Source `TradeSettings` from the `lib.rs` `PoolState`. -/
structure TradeSettings where
  max_size_bps : Nat
  min_size : Nat
  cooldown_seconds : Nat
  last_trade_time : Nat
  early_trade_fee_bps : Nat
  early_trade_window_seconds : Nat
  deriving DecidableEq, Repr

/-- Source `RateLimitSettings` from the `lib.rs` `PoolState` (`max_calls` is stored
as `u64` there, widened from the `u32` instruction argument). -/
structure RateLimitSettings where
  window_seconds : Nat
  count : Nat
  max_calls : Nat
  last_reset : Nat
  deriving DecidableEq, Repr

/-- Source `CircuitBreakerSettings` from the `lib.rs` `PoolState`. -/
structure CircuitBreakerSettings where
  enabled : Bool
  threshold : Nat
  window : Nat
  cooldown : Nat
  last_trigger : Nat
  deriving DecidableEq, Repr

/-- Source `VolumeSettings` from the `lib.rs` `PoolState`. -/
structure VolumeSettings where
  daily_limit : Nat
  current_volume : Nat
  last_reset : Nat
  decay_rate : Nat
  deriving DecidableEq, Repr

/-- Source `ProtectionSettings` from the `lib.rs` `PoolState`. -/
structure ProtectionSettings where
  enabled : Bool
  min_liquidity : Nat
  max_price_impact : Nat
  max_slippage : Nat
  blacklist_enabled : Bool
  deriving DecidableEq, Repr

/-- Fee tier entry (`volume_threshold`, `fee_bps`), as used by the `lib.rs`
fee logic. -/
structure FeeTier where
  volume_threshold : Nat
  fee_bps : Nat
  deriving DecidableEq, Repr

/-- Trade-settings sub-bundle of a pending update, with exactly the fields
`apply_parameter_update` reads. -/
structure TradeSettingsUpdate where
  early_trade_fee_bps : Nat
  early_trade_window_seconds : Nat
  max_trade_size_bps : Nat
  min_trade_size : Nat
  cooldown_seconds : Nat
  deriving DecidableEq, Repr

/-- Protection-settings sub-bundle, with exactly the fields
`apply_parameter_update` reads. -/
structure ProtectionSettingsUpdate where
  max_daily_volume : Nat
  max_price_impact_bps : Nat
  max_slippage : Nat
  blacklist_enabled : Bool
  circuit_breaker_threshold : Nat
  circuit_breaker_window : Nat
  circuit_breaker_cooldown : Nat
  rate_limit_window : Nat
  rate_limit_max : Nat
  deriving DecidableEq, Repr

/-- Fee-settings sub-bundle. `apply_parameter_update` treats `fee_tiers` as a
vector (it tests `is_empty`), which is the reading embedded here. -/
structure FeeSettingsUpdate where
  fee_tiers : List FeeTier
  fee_tiers_locked : Bool
  deriving DecidableEq, Repr

/-- State-settings sub-bundle, with exactly the fields
`apply_parameter_update` reads. -/
structure StateSettingsUpdate where
  is_paused : Bool
  is_emergency_paused : Bool
  deriving DecidableEq, Repr

/-- A scheduled parameter-update bundle (`PendingUpdate` in `lib.rs`). -/
structure PendingUpdate where
  scheduled_time : Nat
  trade_settings : Option TradeSettingsUpdate
  protection_settings : Option ProtectionSettingsUpdate
  fee_settings : Option FeeSettingsUpdate
  state_settings : Option StateSettingsUpdate
  deriving DecidableEq, Repr

/-- The pool state record, following the `#[account] pub struct PoolState` in
`lib.rs` (account-layout bookkeeping such as `bump`, `pool_id`, `token_mint`
and `version` is kept where operations touch it, as plain data). -/
structure PoolState where
  admin : Addr
  emergency_admin : Addr
  token_decimals : Nat
  total_fees_collected : Nat
  total_liquidity : Nat
  is_paused : Bool
  is_emergency_paused : Bool
  is_finalized : Bool
  pool_start_time : Nat
  last_update : Nat
  last_admin_update : Nat
  emergency_action_scheduled_time : Nat
  pending_update : Option PendingUpdate
  trade_settings : TradeSettings
  rate_limit : RateLimitSettings
  circuit_breaker : CircuitBreakerSettings
  volume : VolumeSettings
  protection : ProtectionSettings
  fee_tiers : List FeeTier
  fee_tiers_locked : Bool
  default_fee_bps : Option Nat
  trader_blacklist : List Addr
  deriving DecidableEq, Repr

/-- Parties between which the external token-transfer capability moves
funds. -/
inductive Party where
  | buyerAcct
  | poolAcct
  | adminAcct
  deriving DecidableEq, Repr

/-- One external token transfer issued by an operation. -/
structure TransferRec where
  src : Party
  dst : Party
  amount : Nat
  deriving DecidableEq, Repr

/-- Result record of a successful trade (`TradeOutcome`). -/
structure TradeOutcome where
  amount_out : Nat
  fee_amount : Nat
  fee_mode : Nat
  price_impact : Nat
  timestamp : Nat
  deriving DecidableEq, Repr

/-- Source `PoolState::enforce_min_fee` (lib.rs 1620-1630): floor the fee at
`MINIMUM_FEE`; the subsequent `min_fee < fee` overflow test can never fire
(it is embedded verbatim regardless). -/
def enforce_min_fee (fee : Nat) : Except ErrorCode Nat :=
  let min_fee := max fee MINIMUM_FEE
  if min_fee < fee then .error .Overflow else .ok min_fee

/-- The fee-tier scan inside `PoolState::calculate_fee` (lib.rs 1661-1686):
pick the first tier whose `volume_threshold` is at or above the tracked
volume; fall back to `default_fee_bps` (or `MINIMUM_FEE_BPS`) past the last
tier. -/
def tierFee (tiers : List FeeTier) (current_volume default_bps amount_in : Nat) :
    Except ErrorCode (Nat × Nat) :=
  match tiers with
  | [] => do
      let p ← okOr .Overflow (checkedMul default_bps amount_in)
      let fee ← okOr .Overflow (checkedDiv p 10000)
      let fee ← enforce_min_fee fee
      .ok (fee, FEE_MODE_NONE)
  | tier :: rest =>
      if current_volume ≤ tier.volume_threshold then do
        let p ← okOr .Overflow (checkedMul tier.fee_bps amount_in)
        let fee ← okOr .Overflow (checkedDiv p 10000)
        let fee ← enforce_min_fee fee
        .ok (fee, FEE_MODE_TIER_BASED)
      else tierFee rest current_volume default_bps amount_in

/-- Source `PoolState::calculate_fee` (lib.rs 1632-1686). The time argument is the
`i64` clock; `pool_age` is an `i64` checked subtraction and the early-window
test is the strict `pool_age < early_trade_window_seconds` of the `impl`
method (the superseded free function at lib.rs 352 used `<=`). -/
def PoolState.calculate_fee (s : PoolState) (amount_in : Nat) (current_time : Int) :
    Except ErrorCode (Nat × Nat) := do
  let pool_age ← okOr .InvalidTimestamp
    (checkedSubI64 current_time (Int.ofNat s.pool_start_time))
  if pool_age < Int.ofNat s.trade_settings.early_trade_window_seconds then
    let p ← okOr .Overflow (checkedMul s.trade_settings.early_trade_fee_bps amount_in)
    let fee ← okOr .Overflow (checkedDiv p 10000)
    let fee ← enforce_min_fee fee
    .ok (fee, FEE_MODE_EARLY_TRADE)
  else
    tierFee s.fee_tiers s.volume.current_volume
      (s.default_fee_bps.getD MINIMUM_FEE_BPS) amount_in

/-- Source `PoolState::calculate_price_impact` (lib.rs 1598-1611). -/
def PoolState.calculate_price_impact (_s : PoolState) (amount_in pool_balance : Nat) :
    Except ErrorCode Nat :=
  if pool_balance = 0 then .ok 0
  else do
    let p ← okOr .Overflow (checkedMul amount_in 10000)
    okOr .Overflow (checkedDiv p pool_balance)

/-- Source `PoolState::check_rate_limit` (lib.rs 1860-1878): roll the window over
when `last_reset + window_seconds ≤ now`, then admit iff `count < max_calls`,
incrementing with a checked add. -/
def PoolState.check_rate_limit (s : PoolState) (current_time : Nat) :
    Except ErrorCode PoolState :=
  let rl :=
    if s.rate_limit.last_reset + s.rate_limit.window_seconds ≤ current_time then
      { s.rate_limit with count := 0, last_reset := current_time }
    else s.rate_limit
  if rl.max_calls ≤ rl.count then .error .RateLimitExceeded
  else
    match checkedAdd rl.count 1 with
    | none => .error .Overflow
    | some c => .ok { s with rate_limit := { rl with count := c } }

/-- Source `PoolState::decay_volume` (lib.rs 1473-1501): after `h ≥ 1` whole idle
hours, multiply the tracked volume by `(100 - min h 24) / 100` (saturating
multiply, floor division) and stamp `last_reset`. -/
def PoolState.decay_volume (s : PoolState) (current_time : Nat) :
    Except ErrorCode PoolState := do
  let diff ← okOr .InvalidTimestamp (checkedSub current_time s.volume.last_reset)
  let hours_passed ← okOr .Overflow (checkedDiv diff 3600)
  if 0 < hours_passed then
    let decay_factor := 100 - min hours_passed 24
    let new_volume ← okOr .Overflow
      (checkedDiv (satMul s.volume.current_volume decay_factor) 100)
    .ok { s with volume :=
      { s.volume with current_volume := new_volume, last_reset := current_time } }
  else .ok s

/-- Source `ValidationHelpers::check_volume_limit` (lib.rs 1949-1959); the draft
field name `max_daily` corresponds to `daily_limit` of the canonical
`VolumeSettings`. -/
def PoolState.check_volume_limit (s : PoolState) (amount : Nat) :
    Except ErrorCode Unit := do
  let new_volume ← okOr .Overflow (checkedAdd s.volume.current_volume amount)
  if s.volume.daily_limit < new_volume then .error .DailyVolumeLimitExceeded
  else .ok ()

/-- Source `ValidationHelpers::check_circuit_breaker` (lib.rs 1927-1934). -/
def PoolState.check_circuit_breaker (s : PoolState) (current_time : Nat) :
    Except ErrorCode Unit :=
  if current_time < s.circuit_breaker.last_trigger + s.circuit_breaker.cooldown then
    .error .CircuitBreakerCooldown
  else .ok ()

/-- Source `validate_trade_parameters` (validation.rs 12-27). The three helper
calls there (`check_volume_limit`, `check_rate_limit`, `check_circuit_breaker`)
do not match any single method signature across the repository's draft
variants; each is resolved to the corresponding `PoolState` method of the
canonical `lib.rs` variant (`check_rate_limit` being the stateful
window-resetting one that the rate-limit specification describes). -/
def validate_trade_parameters (s : PoolState) (trader : Addr) (amount : Nat)
    (current_time : Nat) : Except ErrorCode PoolState := do
  if s.is_paused then .error .PoolPaused
  else if s.is_emergency_paused then .error .EmergencyPaused
  else if amount = 0 then .error .InvalidAmount
  else if current_time = 0 then .error .InvalidTimestamp
  else do
    s.check_volume_limit amount
    let s ← s.check_rate_limit current_time
    s.check_circuit_breaker current_time
    if s.protection.blacklist_enabled ∧ trader ∈ s.trader_blacklist then
      .error .Unauthorized
    else .ok s

/-- Source `execute_trade` (lib.rs 242-344). The handler validates, computes the fee
and the constant-product style output
`amount_out = aft * L / (L + aft)` (where `aft = amount_in - fee` and `L` is
`total_liquidity`), checks price impact and slippage, and then issues a
single external transfer — `amount_in` from the buyer's token account to the
pool's token account; no transfer of `amount_out` back to the buyer appears
in the handler. The transfers it issues are returned alongside the updated
state and the `TradeOutcome`. -/
def execute_trade (s0 : PoolState) (buyer : Addr) (amount_in minimum_amount_out : Nat)
    (current_time : Nat) :
    Except ErrorCode (PoolState × TradeOutcome × List TransferRec) := do
  let s ← validate_trade_parameters s0 buyer amount_in current_time
  let fm ← s.calculate_fee amount_in (Int.ofNat current_time)
  let fee_amount := fm.1
  let amount_after_fee ← okOr .Overflow (checkedSub amount_in fee_amount)
  let price_impact ← s.calculate_price_impact amount_after_fee s.total_liquidity
  if s.protection.max_price_impact < price_impact then .error .PriceImpactTooHigh
  else do
    let num ← okOr .Overflow (checkedMul amount_after_fee s.total_liquidity)
    let den ← okOr .Overflow (checkedAdd s.total_liquidity amount_after_fee)
    let amount_out ← okOr .Overflow (checkedDiv num den)
    if amount_out < minimum_amount_out then .error .SlippageExceeded
    else do
      let transfers := [⟨Party.buyerAcct, Party.poolAcct, amount_in⟩]
      let tl ← okOr .Overflow (checkedAdd s.total_liquidity amount_in)
      let tf ← okOr .Overflow (checkedAdd s.total_fees_collected fee_amount)
      let s' := { s with
        total_liquidity := tl,
        total_fees_collected := tf,
        trade_settings := { s.trade_settings with last_trade_time := current_time },
        last_update := current_time }
      .ok (s', ⟨amount_out, fee_amount, fm.2, price_impact, current_time⟩, transfers)

/-- Source `validate_admin_action` (validation.rs 5-10): admin identity, then the
emergency-pause gate, then a positive clock. -/
def validate_admin_action (s : PoolState) (caller : Addr) (current_time : Nat) :
    Except ErrorCode Unit :=
  if s.admin ≠ caller then .error .Unauthorized
  else if s.is_emergency_paused then .error .EmergencyPaused
  else if current_time = 0 then .error .InvalidTimestamp
  else .ok ()

/-- Source `add_liquidity` (lib.rs 120-182). The token-account checks operate on
external account data outside `PoolState`; they are abstracted as the
`accounts_ok` input (false ⇒ `InvalidTokenAccount`). The handler issues one
transfer admin→pool and credits `total_liquidity`. -/
def add_liquidity (s : PoolState) (caller : Addr) (amount : Nat)
    (current_time : Nat) (accounts_ok : Bool) :
    Except ErrorCode (PoolState × List TransferRec) := do
  validate_admin_action s caller current_time
  if amount = 0 then .error .InvalidAmount
  else if ¬accounts_ok then .error .InvalidTokenAccount
  else do
    let transfers := [⟨Party.adminAcct, Party.poolAcct, amount⟩]
    let tl ← okOr .Overflow (checkedAdd s.total_liquidity amount)
    .ok ({ s with
      total_liquidity := tl
      last_update := current_time
      last_admin_update := current_time }, transfers)

/-- Source `remove_liquidity` (lib.rs 190-231). Mirrors the source: it debits
`total_liquidity` and stamps the timestamps; the handler body contains no
token transfer. -/
def remove_liquidity (s : PoolState) (caller : Addr) (amount : Nat)
    (current_time : Nat) : Except ErrorCode PoolState := do
  validate_admin_action s caller current_time
  if amount = 0 then .error .InvalidAmount
  else if s.total_liquidity < amount then .error .InsufficientLiquidity
  else do
    let tl ← okOr .Overflow (checkedSub s.total_liquidity amount)
    .ok { s with
      total_liquidity := tl
      last_update := current_time
      last_admin_update := current_time }

/-- Source `withdraw_fees` (lib.rs 487-527), with the external token-account checks
abstracted as `accounts_ok`. Transfers the collected fees pool→admin and
zeroes the accumulator. -/
def withdraw_fees (s : PoolState) (caller : Addr) (current_time : Nat)
    (accounts_ok : Bool) : Except ErrorCode (PoolState × List TransferRec) := do
  validate_admin_action s caller current_time
  if ¬accounts_ok then .error .InvalidTokenAccount
  else if s.total_fees_collected = 0 then .error .NoFeesAvailable
  else
    let transfers := [⟨Party.poolAcct, Party.adminAcct, s.total_fees_collected⟩]
    .ok ({ s with total_fees_collected := 0, last_update := current_time }, transfers)

/-- Source `lock_fee_tiers` (lib.rs 534-556). -/
def lock_fee_tiers (s : PoolState) (caller : Addr) (current_time : Nat) :
    Except ErrorCode PoolState := do
  validate_admin_action s caller current_time
  if s.fee_tiers_locked then .error .FeeTiersLocked
  else .ok { s with fee_tiers_locked := true, last_update := current_time }

/-- Source `unlock_fee_tiers` (lib.rs 564-586): despite the doc comment's mention of
a timelock, the handler unlocks immediately. -/
def unlock_fee_tiers (s : PoolState) (caller : Addr) (current_time : Nat) :
    Except ErrorCode PoolState := do
  validate_admin_action s caller current_time
  if ¬s.fee_tiers_locked then .error .FeeTiersNotLocked
  else .ok { s with fee_tiers_locked := false, last_update := current_time }

/-- The per-tier loop of `PoolState::validate_fee_tiers` (lib.rs 1720-1770),
threading the previous threshold and previous fee. -/
def tiersWellFormed (tiers : List FeeTier) (prev_threshold prev_fee : Nat) :
    Except ErrorCode Unit :=
  match tiers with
  | [] => .ok ()
  | tier :: rest =>
      if tier.volume_threshold ≤ prev_threshold then .error .InvalidFeeTierSpacing
      else if tier.fee_bps < MINIMUM_FEE_BPS then .error .FeeTooLow
      else if MAXIMUM_FEE_BPS < tier.fee_bps then .error .FeeTooHigh
      else if prev_fee < tier.fee_bps then .error .InvalidFeeTier
      else if tier.fee_bps = prev_fee then .error .DuplicateFeeTierThreshold
      else tiersWellFormed rest tier.volume_threshold tier.fee_bps

/-- Source `PoolState::validate_fee_tiers` (lib.rs 1706-1773). -/
def PoolState.validate_fee_tiers (_s : PoolState) (tiers : List FeeTier) :
    Except ErrorCode Unit := do
  if tiers.isEmpty then .error .InvalidFeeTier
  else if MAX_FEE_TIERS < tiers.length then .error .TooManyFeeTiers
  else tiersWellFormed tiers 0 (MAXIMUM_FEE_BPS + 1)

/-- Source `schedule_parameter_update` (lib.rs 593-647). The `validate_parameter!`
macro used by the handler is not defined anywhere in the repository; it is
read as a range check `lo ≤ value ≤ hi` on its three numeric arguments, and
the fee-tier validation resolves to `PoolState::validate_fee_tiers`. Both
checks sit after the admin validation and are irrelevant to the theorems
below. Stores the bundle with `scheduled_time = now + 86400`, overwriting any
prior pending update. -/
def schedule_parameter_update (s : PoolState) (caller : Addr)
    (ts : Option TradeSettingsUpdate) (ps : Option ProtectionSettingsUpdate)
    (fs : Option FeeSettingsUpdate) (ss : Option StateSettingsUpdate)
    (current_time : Nat) : Except ErrorCode PoolState := do
  validate_admin_action s caller current_time
  match ts with
  | some t =>
      if t.max_trade_size_bps < t.min_trade_size then
        .error .InvalidParameterRelationship
      else .ok ()
  | none => .ok ()
  match ps with
  | some p => if 10000 < p.max_price_impact_bps then .error .PriceImpactTooHigh else .ok ()
  | none => .ok ()
  match fs with
  | some f => if f.fee_tiers.isEmpty then .ok () else s.validate_fee_tiers f.fee_tiers
  | none => .ok ()
  let pu : PendingUpdate :=
    { scheduled_time := current_time + PARAMETER_UPDATE_TIMELOCK
      trade_settings := ts
      protection_settings := ps
      fee_settings := fs
      state_settings := ss }
  .ok { s with pending_update := some pu }

/-- Source `cancel_parameter_update` (lib.rs 654-679): takes the pending update out
(failing with `NoPendingUpdate` when absent) and stamps `last_update`. -/
def cancel_parameter_update (s : PoolState) (caller : Addr) (current_time : Nat) :
    Except ErrorCode PoolState := do
  validate_admin_action s caller current_time
  match s.pending_update with
  | none => .error .NoPendingUpdate
  | some _ => .ok { s with pending_update := none, last_update := current_time }

/-- Source `apply_parameter_update` (lib.rs 686-791): admin validation, presence of
a pending update, timelock `scheduled_time ≤ now`, then field-by-field
application of each present sub-bundle in source order, then the slot is
cleared. -/
def apply_parameter_update (s : PoolState) (caller : Addr) (current_time : Nat) :
    Except ErrorCode PoolState := do
  validate_admin_action s caller current_time
  match s.pending_update with
  | none => .error .NoPendingUpdate
  | some pu =>
      if current_time < pu.scheduled_time then .error .TimelockNotExpired
      else
        let s1 := match pu.trade_settings with
          | none => s
          | some t => { s with trade_settings := { s.trade_settings with
              early_trade_fee_bps := t.early_trade_fee_bps,
              early_trade_window_seconds := t.early_trade_window_seconds,
              max_size_bps := t.max_trade_size_bps,
              min_size := t.min_trade_size,
              cooldown_seconds := t.cooldown_seconds } }
        let s2 := match pu.protection_settings with
          | none => s1
          | some p => { s1 with
              volume := { s1.volume with daily_limit := p.max_daily_volume },
              protection := { s1.protection with
                max_price_impact := p.max_price_impact_bps,
                max_slippage := p.max_slippage,
                blacklist_enabled := p.blacklist_enabled },
              circuit_breaker := { s1.circuit_breaker with
                threshold := p.circuit_breaker_threshold,
                window := p.circuit_breaker_window,
                cooldown := p.circuit_breaker_cooldown },
              rate_limit := { s1.rate_limit with
                window_seconds := p.rate_limit_window,
                max_calls := p.rate_limit_max } }
        let s3 := match pu.fee_settings with
          | none => s2
          | some f => { s2 with
              fee_tiers := if f.fee_tiers.isEmpty then s2.fee_tiers else f.fee_tiers,
              fee_tiers_locked := f.fee_tiers_locked }
        let s4 := match pu.state_settings with
          | none => s3
          | some st => { s3 with
              is_paused := st.is_paused
              is_emergency_paused := st.is_emergency_paused }
        .ok { s4 with pending_update := none, last_update := current_time }

/-- Source `reset_circuit_breaker` (lib.rs 930-955). -/
def reset_circuit_breaker (s : PoolState) (caller : Addr) (current_time : Nat) :
    Except ErrorCode PoolState := do
  validate_admin_action s caller current_time
  if current_time < s.circuit_breaker.last_trigger + s.circuit_breaker.cooldown then
    .error .CircuitBreakerCooldown
  else .ok { s with
    circuit_breaker := { s.circuit_breaker with last_trigger := 0 }
    last_update := current_time }

/-- Source `update_admin` (lib.rs 963-991). -/
def update_admin (s : PoolState) (caller new_admin : Addr) (current_time : Nat) :
    Except ErrorCode PoolState := do
  validate_admin_action s caller current_time
  if new_admin = s.admin ∨ new_admin = s.emergency_admin then .error .InvalidNewAdmin
  else .ok { s with
    admin := new_admin
    last_admin_update := current_time
    last_update := current_time }

/-- Source `toggle_pause` (lib.rs 1024-1051). -/
def toggle_pause (s : PoolState) (caller : Addr) (current_time : Nat) :
    Except ErrorCode PoolState := do
  validate_admin_action s caller current_time
  .ok { s with is_paused := ¬s.is_paused, last_update := current_time }

/-- Source `schedule_emergency_pause` (lib.rs 798-822): emergency-admin identity and
the not-already-paused precondition only; the handler performs no
`is_finalized` check. -/
def schedule_emergency_pause (s : PoolState) (caller : Addr) (current_time : Nat) :
    Except ErrorCode PoolState :=
  if caller ≠ s.emergency_admin then .error .InvalidEmergencyAdmin
  else if s.is_emergency_paused then .error .EmergencyPaused
  else .ok { s with emergency_action_scheduled_time := current_time + 3600 }

/-- Source `apply_emergency_pause` (lib.rs 829-857): emergency-admin identity and
the timelock only; no `is_finalized` check. -/
def apply_emergency_pause (s : PoolState) (caller : Addr) (current_time : Nat) :
    Except ErrorCode PoolState :=
  if caller ≠ s.emergency_admin then .error .InvalidEmergencyAdmin
  else if current_time < s.emergency_action_scheduled_time then
    .error .TimelockNotExpired
  else .ok { s with is_emergency_paused := true, last_update := current_time }

/-- Source `schedule_emergency_resume` (lib.rs 864-888): emergency-admin identity
and the currently-paused precondition only; no `is_finalized` check. -/
def schedule_emergency_resume (s : PoolState) (caller : Addr) (current_time : Nat) :
    Except ErrorCode PoolState :=
  if caller ≠ s.emergency_admin then .error .InvalidEmergencyAdmin
  else if ¬s.is_emergency_paused then .error .PoolNotPaused
  else .ok { s with emergency_action_scheduled_time := current_time + 3600 }

/-- Source `apply_emergency_resume` (lib.rs 895-923): emergency-admin identity and
the timelock only; no `is_finalized` check. -/
def apply_emergency_resume (s : PoolState) (caller : Addr) (current_time : Nat) :
    Except ErrorCode PoolState :=
  if caller ≠ s.emergency_admin then .error .InvalidEmergencyAdmin
  else if current_time < s.emergency_action_scheduled_time then
    .error .TimelockNotExpired
  else .ok { s with is_emergency_paused := false, last_update := current_time }

/-- Source `validate_emergency_action` (lib.rs 1081-1119). This helper contains the
`PoolFinalized` gate, but no handler in the program calls it. -/
def validate_emergency_action (s : PoolState) (caller : Addr) (current_time : Nat) :
    Except ErrorCode Unit :=
  if caller ≠ s.emergency_admin then .error .InvalidEmergencyAdmin
  else if s.is_finalized then .error .PoolFinalized
  else if 0 < s.emergency_action_scheduled_time then .error .OperationFailed
  else if current_time < s.last_update + EMERGENCY_TIMELOCK_SECONDS then
    .error .TimelockNotExpired
  else .ok ()

/-- Source `BlacklistOperation` (types.rs). -/
inductive BlacklistOperation where
  | Add
  | Remove
  deriving DecidableEq, Repr

/-- Source `HashSet::insert` on the membership set modelled as a duplicate-free
list: a no-op when the address is already present. -/
def blInsert (l : List Addr) (a : Addr) : List Addr :=
  if a ∈ l then l else l ++ [a]

/-- Source `HashSet::remove`: a no-op when the address is absent. -/
def blRemove (l : List Addr) (a : Addr) : List Addr :=
  l.filter (· ≠ a)

/-- Source `process_blacklist_operations` (utils.rs 6-36): requires the blacklist
feature enabled and the batch within `BATCH_BLACKLIST_MAX_SIZE` (and, for
adds, total membership within `MAX_BLACKLIST_SIZE` — both size violations
reuse the `TooManyFeeTiers` code); it then inserts or removes each address
with plain set semantics. It performs no already-present, absent, or
admin-address checks. The `blacklist` field of the draft it was written
against corresponds to `trader_blacklist` of the canonical `PoolState`. -/
def process_blacklist_operations (s : PoolState) (traders : List Addr)
    (op : BlacklistOperation) : Except ErrorCode PoolState :=
  if ¬s.protection.blacklist_enabled then .error .Unauthorized
  else if BATCH_BLACKLIST_MAX_SIZE < traders.length then .error .TooManyFeeTiers
  else
    match op with
    | .Add =>
        if MAX_BLACKLIST_SIZE < s.trader_blacklist.length + traders.length then
          .error .TooManyFeeTiers
        else .ok { s with trader_blacklist := traders.foldl blInsert s.trader_blacklist }
    | .Remove =>
        .ok { s with trader_blacklist := traders.foldl blRemove s.trader_blacklist }

/-- One rate-limiter call as the hosting runtime sees it: a failed call's
state changes are discarded (transaction atomicity), a successful call
commits the updated state. -/
def rlStep (s : PoolState) (now : Nat) : PoolState :=
  match s.check_rate_limit now with
  | .ok s' => s'
  | .error _ => s

/-- A whole sequence of rate-limited calls at the given times. -/
def runRateCalls (s : PoolState) (times : List Nat) : PoolState :=
  times.foldl rlStep s

/-! ## Concrete pool states used by the scenario theorems -/

/-- The pool of the specification's trading scenario: admin `1`, emergency
admin `2`, `early_trade_fee_bps = 500`, `early_trade_window_seconds = 300`,
`min_trade_size = 100`, a million units of liquidity, and permissive
rate/volume/impact limits, started at clock `1000000`. -/
def tradePool : PoolState :=
  { admin := 1
    emergency_admin := 2
    token_decimals := 6
    total_fees_collected := 0
    total_liquidity := 1000000
    is_paused := false
    is_emergency_paused := false
    is_finalized := false
    pool_start_time := 1000000
    last_update := 1000000
    last_admin_update := 1000000
    emergency_action_scheduled_time := 0
    pending_update := none
    trade_settings :=
      { max_size_bps := 1000
        min_size := 100
        cooldown_seconds := 0
        last_trade_time := 0
        early_trade_fee_bps := 500
        early_trade_window_seconds := 300 }
    rate_limit :=
      { window_seconds := 60
        count := 0
        max_calls := 100
        last_reset := 1000000 }
    circuit_breaker :=
      { enabled := true
        threshold := 1000000000
        window := 86400
        cooldown := 3600
        last_trigger := 0 }
    volume :=
      { daily_limit := 1000000000
        current_volume := 0
        last_reset := 1000000
        decay_rate := 0 }
    protection :=
      { enabled := true
        min_liquidity := 0
        max_price_impact := 10000
        max_slippage := 0
        blacklist_enabled := false }
    fee_tiers := []
    fee_tiers_locked := false
    default_fee_bps := none
    trader_blacklist := [] }

/-- A small pool past its early-trade window with a tight 50 bps price-impact
ceiling: 100 units of liquidity, started at clock `1000`. -/
def impactPool : PoolState :=
  { tradePool with
    total_liquidity := 100
    pool_start_time := 1000
    rate_limit := { tradePool.rate_limit with last_reset := 1000 }
    volume := { tradePool.volume with last_reset := 1000 }
    protection := { tradePool.protection with max_price_impact := 50 } }

/-- The trading pool with the blacklist feature enabled and address `7`
already blacklisted. -/
def blacklistPool : PoolState :=
  { tradePool with
    protection := { tradePool.protection with blacklist_enabled := true }
    trader_blacklist := [7] }

/-- The trading pool with 100 units of tracked volume last reset at clock 0,
about to sit idle for a full day. -/
def decayPool : PoolState :=
  { tradePool with
    volume := { tradePool.volume with current_volume := 100, last_reset := 0 } }

/-- A finalized, not emergency-paused pool with no emergency action
scheduled. -/
def finalizedPool : PoolState :=
  { tradePool with is_finalized := true }

/-- A finalized pool that is currently emergency-paused. -/
def finalizedPausedPool : PoolState :=
  { tradePool with is_finalized := true, is_emergency_paused := true }

/-- A pending fee-settings bundle scheduled for clock `2000000`. -/
def samplePending : PendingUpdate :=
  { scheduled_time := 2000000
    trade_settings := none
    protection_settings := none
    fee_settings := some { fee_tiers := [⟨1000, 30⟩], fee_tiers_locked := false }
    state_settings := none }

/-- An emergency-paused pool holding `samplePending`. -/
def pausedPendingPool : PoolState :=
  { tradePool with is_emergency_paused := true, pending_update := some samplePending }

/-- The trading pool while emergency-paused. -/
def emergencyPausedPool : PoolState :=
  { tradePool with is_emergency_paused := true }

/-- The (not paused) trading pool holding `samplePending`. -/
def pendingPool : PoolState :=
  { tradePool with pending_update := some samplePending }

/-! ## Theorems -/

/-- Source `enforce_min_fee` always returns the fee floored at `MINIMUM_FEE`; its
overflow branch is unreachable. -/
theorem enforce_min_fee_eq (f : Nat) :
    enforce_min_fee f = .ok (max f MINIMUM_FEE) := by
  have h : ¬ (max f MINIMUM_FEE < f) := not_lt.mpr (le_max_left _ _)
  simp [enforce_min_fee, h]

/-- A bps-of-amount fee floored at `MINIMUM_FEE` stays at or below the
amount, provided the rate is at most 100% and the amount is positive. -/
theorem bps_fee_le {bps a : Nat} (hb : bps ≤ 10000) (ha : 1 ≤ a) :
    max (bps * a / 10000) MINIMUM_FEE ≤ a := by
  apply max_le
  · calc bps * a / 10000 ≤ 10000 * a / 10000 :=
        Nat.div_le_div_right (Nat.mul_le_mul_right a hb)
      _ = a := Nat.mul_div_cancel_left a (by norm_num)
  · simpa [MINIMUM_FEE] using ha

/-- Fee bounds for the tier-scan/fallback part of `calculate_fee`. -/
theorem tierFee_bounds :
    ∀ (tiers : List FeeTier) (vol dbps a fee mode : Nat),
      (∀ t ∈ tiers, t.fee_bps ≤ 10000) → dbps ≤ 10000 → 1 ≤ a →
      tierFee tiers vol dbps a = .ok (fee, mode) →
      MINIMUM_FEE ≤ fee ∧ fee ≤ a := by
  intro tiers
  induction tiers with
  | nil =>
      intro vol dbps a fee mode _ hd ha heq
      by_cases hov : dbps * a < U64_MOD
      · simp [tierFee, okOr, checkedMul, checkedDiv, hov, bind, Except.bind,
          enforce_min_fee_eq] at heq
        obtain ⟨h1, _⟩ := heq
        exact h1 ▸ ⟨le_max_right _ _, bps_fee_le hd ha⟩
      · simp [tierFee, okOr, checkedMul, hov, bind, Except.bind] at heq
  | cons t rest ih =>
      intro vol dbps a fee mode htiers hd ha heq
      by_cases hsel : vol ≤ t.volume_threshold
      · by_cases hov : t.fee_bps * a < U64_MOD
        · simp [tierFee, hsel, okOr, checkedMul, checkedDiv, hov, bind, Except.bind,
            enforce_min_fee_eq] at heq
          obtain ⟨h1, _⟩ := heq
          have hb : t.fee_bps ≤ 10000 := htiers t (by simp)
          exact h1 ▸ ⟨le_max_right _ _, bps_fee_le hb ha⟩
        · simp [tierFee, hsel, okOr, checkedMul, hov, bind, Except.bind] at heq
      · simp only [tierFee, hsel, if_false] at heq
        exact ih vol dbps a fee mode (fun x hx => htiers x (by simp [hx])) hd ha heq

/-- C3 (amended): whenever `calculate_fee` succeeds on a positive `amount_in`
with every configured fee rate at most 10000 bps, the fee is at least
`MINIMUM_FEE` and at most `amount_in` — but NOT strictly below `amount_in`:
equality is reachable (see the counterexample theorem, where `amount_in = 1`
yields `fee = 1` and the trade proceeds with zero output; no `FeeTooHigh`
check exists on the trade path). -/
theorem calculate_fee_bounds :
    ∀ (s : PoolState) (a fee mode : Nat) (t : Int),
      s.trade_settings.early_trade_fee_bps ≤ 10000 →
      (∀ tier ∈ s.fee_tiers, tier.fee_bps ≤ 10000) →
      s.default_fee_bps.getD MINIMUM_FEE_BPS ≤ 10000 →
      1 ≤ a →
      s.calculate_fee a t = .ok (fee, mode) →
      MINIMUM_FEE ≤ fee ∧ fee ≤ a := by
  intro s a fee mode t hearly htiers hdflt ha heq
  unfold PoolState.calculate_fee at heq
  by_cases hage : -(2 ^ 63) ≤ t - Int.ofNat s.pool_start_time ∧
      t - Int.ofNat s.pool_start_time < 2 ^ 63
  · rw [show checkedSubI64 t (Int.ofNat s.pool_start_time) =
        some (t - Int.ofNat s.pool_start_time) from by
          unfold checkedSubI64; rw [if_pos hage]] at heq
    simp only [okOr, bind, Except.bind] at heq
    by_cases hwin : t - Int.ofNat s.pool_start_time <
        Int.ofNat s.trade_settings.early_trade_window_seconds
    · rw [if_pos hwin] at heq
      by_cases hov : s.trade_settings.early_trade_fee_bps * a < U64_MOD
      · rw [show checkedMul s.trade_settings.early_trade_fee_bps a =
            some (s.trade_settings.early_trade_fee_bps * a) from by
              unfold checkedMul; rw [if_pos hov]] at heq
        simp only [okOr, bind, Except.bind] at heq
        rw [show checkedDiv (s.trade_settings.early_trade_fee_bps * a) 10000 =
            some (s.trade_settings.early_trade_fee_bps * a / 10000) from by
              unfold checkedDiv; norm_num] at heq
        simp only [okOr, bind, Except.bind, enforce_min_fee_eq, Except.ok.injEq,
          Prod.mk.injEq] at heq
        obtain ⟨h1, _⟩ := heq
        exact h1 ▸ ⟨le_max_right _ _, bps_fee_le hearly ha⟩
      · rw [show checkedMul s.trade_settings.early_trade_fee_bps a = none from by
            unfold checkedMul; rw [if_neg hov]] at heq
        simp only [okOr, bind, Except.bind] at heq
        exact absurd heq (by simp)
    · rw [if_neg hwin] at heq
      exact tierFee_bounds s.fee_tiers s.volume.current_volume
        (s.default_fee_bps.getD MINIMUM_FEE_BPS) a fee mode htiers hdflt ha heq
  · rw [show checkedSubI64 t (Int.ofNat s.pool_start_time) = none from by
        unfold checkedSubI64; rw [if_neg hage]] at heq
    simp only [okOr, bind, Except.bind] at heq
    exact absurd heq (by simp)

/-- Witness: on the scenario pool, the early-trade fee for `amount_in = 1000`
is 50, and the bounds theorem instantiates to `1 ≤ 50 ∧ 50 ≤ 1000`. -/
theorem calculate_fee_bounds_witness :
    MINIMUM_FEE ≤ 50 ∧ 50 ≤ 1000 :=
  calculate_fee_bounds tradePool 1000 50 FEE_MODE_EARLY_TRADE 1000100
    (by decide) (by decide) (by decide) (by decide) (by decide)

/-- A single rate-limiter call, as committed by the runtime, preserves
`count ≤ max_calls` and never changes `max_calls`. -/
theorem rlStep_preserves (s : PoolState) (now : Nat)
    (h : s.rate_limit.count ≤ s.rate_limit.max_calls) :
    (rlStep s now).rate_limit.count ≤ (rlStep s now).rate_limit.max_calls ∧
    (rlStep s now).rate_limit.max_calls = s.rate_limit.max_calls := by
  unfold rlStep PoolState.check_rate_limit
  by_cases hroll : s.rate_limit.last_reset + s.rate_limit.window_seconds ≤ now
  · simp only [hroll, if_true]
    by_cases hadm : s.rate_limit.max_calls ≤ 0
    · simp [hadm]
      exact h
    · simp only [hadm, if_false, checkedAdd]
      have h1 : 0 + 1 < U64_MOD := by norm_num [U64_MOD]
      simp [h1]
      omega
  · simp only [hroll, if_false]
    by_cases hadm : s.rate_limit.max_calls ≤ s.rate_limit.count
    · simp [hadm]
      exact h
    · simp only [hadm, if_false, checkedAdd]
      by_cases hov : s.rate_limit.count + 1 < U64_MOD
      · simp [hov]
        omega
      · simp [hov]
        exact h

/-- C4: `check_rate_limit` first rolls the window over (reset to `count = 0`,
`last_reset = now`) exactly when `last_reset + window_seconds ≤ now` — in
particular a call exactly at `last_reset + window_seconds` resets before
admission is evaluated — then fails with `RateLimitExceeded` iff the
(post-reset) count is at least `max_calls`, and otherwise commits the
incremented count; consequently over any sequence of calls the committed
count never exceeds `max_calls`. -/
theorem check_rate_limit_spec :
    (∀ (s : PoolState) (now : Nat),
      s.rate_limit.max_calls < U64_MOD →
      ((s.check_rate_limit now = .error .RateLimitExceeded ↔
        s.rate_limit.max_calls ≤
          (if s.rate_limit.last_reset + s.rate_limit.window_seconds ≤ now then 0
           else s.rate_limit.count)) ∧
       ((if s.rate_limit.last_reset + s.rate_limit.window_seconds ≤ now then 0
         else s.rate_limit.count) < s.rate_limit.max_calls →
        s.check_rate_limit now = .ok { s with rate_limit :=
          { window_seconds := s.rate_limit.window_seconds
            count := (if s.rate_limit.last_reset + s.rate_limit.window_seconds ≤ now
              then 0 else s.rate_limit.count) + 1
            max_calls := s.rate_limit.max_calls
            last_reset :=
              if s.rate_limit.last_reset + s.rate_limit.window_seconds ≤ now then now
              else s.rate_limit.last_reset } }))) ∧
    (∀ (s : PoolState) (times : List Nat),
      s.rate_limit.count ≤ s.rate_limit.max_calls →
      (runRateCalls s times).rate_limit.count ≤ s.rate_limit.max_calls ∧
      (runRateCalls s times).rate_limit.max_calls = s.rate_limit.max_calls) := by
  constructor
  · intro s now hmax
    unfold PoolState.check_rate_limit
    by_cases hroll : s.rate_limit.last_reset + s.rate_limit.window_seconds ≤ now
    · simp only [hroll, if_true, ite_true]
      by_cases hadm : s.rate_limit.max_calls ≤ 0
      · simp [hadm]
      · have h1 : 0 + 1 < U64_MOD := by norm_num [U64_MOD]
        simp [hadm, checkedAdd, h1]
    · simp only [hroll, if_false, ite_false]
      by_cases hadm : s.rate_limit.max_calls ≤ s.rate_limit.count
      · simp [hadm]
      · have h1 : s.rate_limit.count + 1 < U64_MOD := by omega
        simp [hadm, checkedAdd, h1]
  · intro s times
    induction times generalizing s with
    | nil => intro h; exact ⟨h, rfl⟩
    | cons t ts ih =>
        intro h
        have hstep := rlStep_preserves s t h
        have hrun : runRateCalls s (t :: ts) = runRateCalls (rlStep s t) ts := rfl
        rw [hrun]
        have := ih (rlStep s t) (by omega)
        constructor
        · omega
        · omega

/-- Witness: on the scenario pool at clock `1000100` the window has rolled
over, so the call commits `count = 1` with `last_reset = 1000100`; and a
two-call run keeps the count within `max_calls = 100`. -/
theorem check_rate_limit_spec_witness :
    tradePool.check_rate_limit 1000100 = .ok { tradePool with rate_limit :=
      { window_seconds := 60, count := 1, max_calls := 100, last_reset := 1000100 } } ∧
    (runRateCalls tradePool [1000100, 1000101]).rate_limit.count ≤ 100 := by
  constructor
  · have h := ((check_rate_limit_spec.1 tradePool 1000100 (by decide)).2 (by decide))
    simpa using h
  · exact (check_rate_limit_spec.2 tradePool [1000100, 1000101] (by decide)).1

/-- While a pool is emergency-paused, `validate_admin_action` rejects even
the admin with `EmergencyPaused`. -/
theorem validate_admin_action_paused (s : PoolState) (now : Nat)
    (h : s.is_emergency_paused = true) :
    validate_admin_action s s.admin now = .error .EmergencyPaused := by
  simp [validate_admin_action, h]

/-- C10: while `is_emergency_paused` holds, every admin-gated operation —
including `cancel_parameter_update` and `toggle_pause` — fails with
`EmergencyPaused` when invoked by the admin (each handler calls
`validate_admin_action` before touching any state, so the failing
transaction commits nothing). -/
theorem admin_ops_blocked_when_emergency_paused :
    ∀ (s : PoolState) (now amount new_admin : Nat) (aok : Bool)
      (ts : Option TradeSettingsUpdate) (ps : Option ProtectionSettingsUpdate)
      (fs : Option FeeSettingsUpdate) (ss : Option StateSettingsUpdate),
      s.is_emergency_paused = true →
      add_liquidity s s.admin amount now aok = .error .EmergencyPaused ∧
      remove_liquidity s s.admin amount now = .error .EmergencyPaused ∧
      withdraw_fees s s.admin now aok = .error .EmergencyPaused ∧
      lock_fee_tiers s s.admin now = .error .EmergencyPaused ∧
      unlock_fee_tiers s s.admin now = .error .EmergencyPaused ∧
      schedule_parameter_update s s.admin ts ps fs ss now = .error .EmergencyPaused ∧
      cancel_parameter_update s s.admin now = .error .EmergencyPaused ∧
      apply_parameter_update s s.admin now = .error .EmergencyPaused ∧
      reset_circuit_breaker s s.admin now = .error .EmergencyPaused ∧
      update_admin s s.admin new_admin now = .error .EmergencyPaused ∧
      toggle_pause s s.admin now = .error .EmergencyPaused := by
  intro s now amount new_admin aok ts ps fs ss h
  have hv := validate_admin_action_paused s now h
  refine ⟨?_, ?_, ?_, ?_, ?_, ?_, ?_, ?_, ?_, ?_, ?_⟩ <;>
    simp [add_liquidity, remove_liquidity, withdraw_fees, lock_fee_tiers,
      unlock_fee_tiers, schedule_parameter_update, cancel_parameter_update,
      apply_parameter_update, reset_circuit_breaker, update_admin, toggle_pause,
      hv, bind, Except.bind]

/-- Witness: on the emergency-paused scenario pool, `toggle_pause` and
`apply_parameter_update` by the admin both fail with `EmergencyPaused`. -/
theorem admin_ops_blocked_witness :
    toggle_pause emergencyPausedPool emergencyPausedPool.admin 5 =
      .error .EmergencyPaused ∧
    apply_parameter_update emergencyPausedPool emergencyPausedPool.admin 5 =
      .error .EmergencyPaused := by
  have h := admin_ops_blocked_when_emergency_paused emergencyPausedPool 5 3 9 true
    none none none none rfl
  exact ⟨h.2.2.2.2.2.2.2.2.2.2, h.2.2.2.2.2.2.2.1⟩

/-- C5 (amended): with the admin calling on a pool that is not
emergency-paused (and a positive clock) and a pending update present,
`apply_parameter_update` strictly before `scheduled_time` fails with
`TimelockNotExpired` (so the failing transaction leaves the pending update in
place); at or after `scheduled_time` it succeeds, applies each present
sub-bundle field-by-field, leaves the fields of absent sub-bundles untouched,
and clears `pending_update` back to `none`. -/
theorem apply_parameter_update_timelock :
    ∀ (s : PoolState) (now : Nat) (pu : PendingUpdate),
      s.is_emergency_paused = false → 0 < now → s.pending_update = some pu →
      (now < pu.scheduled_time →
        apply_parameter_update s s.admin now = .error .TimelockNotExpired) ∧
      (pu.scheduled_time ≤ now →
        ∃ s', apply_parameter_update s s.admin now = .ok s' ∧
          s'.pending_update = none ∧
          (pu.trade_settings = none → s'.trade_settings = s.trade_settings) ∧
          (∀ u, pu.trade_settings = some u →
            s'.trade_settings = { s.trade_settings with
              early_trade_fee_bps := u.early_trade_fee_bps
              early_trade_window_seconds := u.early_trade_window_seconds
              max_size_bps := u.max_trade_size_bps
              min_size := u.min_trade_size
              cooldown_seconds := u.cooldown_seconds }) ∧
          (pu.protection_settings = none → s'.protection = s.protection ∧
            s'.circuit_breaker = s.circuit_breaker ∧
            s'.rate_limit = s.rate_limit ∧
            s'.volume.daily_limit = s.volume.daily_limit) ∧
          (∀ u, pu.protection_settings = some u →
            s'.volume.daily_limit = u.max_daily_volume ∧
            s'.protection.max_price_impact = u.max_price_impact_bps ∧
            s'.protection.max_slippage = u.max_slippage ∧
            s'.protection.blacklist_enabled = u.blacklist_enabled ∧
            s'.circuit_breaker.threshold = u.circuit_breaker_threshold ∧
            s'.circuit_breaker.window = u.circuit_breaker_window ∧
            s'.circuit_breaker.cooldown = u.circuit_breaker_cooldown ∧
            s'.rate_limit.window_seconds = u.rate_limit_window ∧
            s'.rate_limit.max_calls = u.rate_limit_max) ∧
          (pu.fee_settings = none → s'.fee_tiers = s.fee_tiers ∧
            s'.fee_tiers_locked = s.fee_tiers_locked) ∧
          (∀ u, pu.fee_settings = some u →
            s'.fee_tiers = (if u.fee_tiers.isEmpty then s.fee_tiers else u.fee_tiers) ∧
            s'.fee_tiers_locked = u.fee_tiers_locked) ∧
          (pu.state_settings = none → s'.is_paused = s.is_paused ∧
            s'.is_emergency_paused = s.is_emergency_paused) ∧
          (∀ u, pu.state_settings = some u → s'.is_paused = u.is_paused ∧
            s'.is_emergency_paused = u.is_emergency_paused)) := by
  intro s now pu hep hnow hpend
  have hval : validate_admin_action s s.admin now = .ok () := by
    simp [validate_admin_action, hep]
    omega
  constructor
  · intro hlt
    simp [apply_parameter_update, hval, hpend, bind, Except.bind, hlt]
  · intro hge
    have hnlt : ¬ (now < pu.scheduled_time) := not_lt.mpr hge
    simp only [apply_parameter_update, hval, hpend, bind, Except.bind, hnlt, if_false,
      ite_false]
    refine ⟨_, rfl, ?_⟩
    obtain ⟨sch, pts, pps, pfs, pss⟩ := pu
    cases pts <;> cases pps <;> cases pfs <;> cases pss <;>
      simp

/-- Witness: on the pool holding the sample pending bundle, applying at clock
`1000100` (before `scheduled_time = 2000000`) fails with `TimelockNotExpired`,
and applying at `2000005` succeeds and clears the slot. -/
theorem apply_parameter_update_timelock_witness :
    apply_parameter_update pendingPool pendingPool.admin 1000100 =
      .error .TimelockNotExpired ∧
    ∃ s', apply_parameter_update pendingPool pendingPool.admin 2000005 = .ok s' ∧
      s'.pending_update = none := by
  constructor
  · exact (apply_parameter_update_timelock pendingPool 1000100 samplePending
      rfl (by decide) rfl).1 (by decide)
  · obtain ⟨s', hok, hnone, _⟩ := (apply_parameter_update_timelock pendingPool 2000005
      samplePending rfl (by decide) rfl).2 (by decide)
    exact ⟨s', hok, hnone⟩

/-- C6 (amended): `calculate_price_impact` returns 0 for an empty pool
(no division fault), and otherwise the floor of `amount_in * 10000 /
pool_balance` with NO clamp-to-1 for nonzero amounts (see the counterexample
theorem); `execute_trade` rejects with `PriceImpactTooHigh` when the computed
impact exceeds `max_price_impact`, as the concrete run shows. -/
theorem price_impact_formula :
    (∀ (s : PoolState) (a : Nat), s.calculate_price_impact a 0 = .ok 0) ∧
    (∀ (s : PoolState) (a b : Nat), b ≠ 0 → a * 10000 < U64_MOD →
      s.calculate_price_impact a b = .ok (a * 10000 / b)) ∧
    execute_trade impactPool 7 10 0 1000000 = .error .PriceImpactTooHigh := by
  refine ⟨fun s a => by simp [PoolState.calculate_price_impact],
    fun s a b hb hov => ?_, by decide⟩
  simp [PoolState.calculate_price_impact, hb, checkedMul, checkedDiv, hov, okOr,
    bind, Except.bind]

/-- Witness: the impact of 950 units against a million-unit pool is
`950 * 10000 / 1000000 = 9` bps. -/
theorem price_impact_formula_witness :
    tradePool.calculate_price_impact 950 1000000 = .ok (950 * 10000 / 1000000) :=
  price_impact_formula.2.1 tradePool 950 1000000 (by decide) (by decide)

/-- C8 (amended): a decay step run at least 24 idle hours after `last_reset`
multiplies the tracked volume by `(100 - min hours 24) / 100 = 76 / 100`
(floor) and stamps `last_reset := now`; it does NOT reset the volume to 0 —
the decay factor bottoms out at 76%, so volume reaches 0 by idle time alone
only through rounding (when `current_volume * 76 < 100`). -/
theorem decay_volume_full_day_step :
    ∀ (s : PoolState) (now : Nat),
      s.volume.last_reset ≤ now →
      24 * 3600 ≤ now - s.volume.last_reset →
      s.volume.current_volume * 76 < U64_MOD →
      s.decay_volume now = .ok { s with volume :=
        { s.volume with
          current_volume := s.volume.current_volume * 76 / 100
          last_reset := now } } := by
  intro s now h1 h2 h3
  have hsub : checkedSub now s.volume.last_reset = some (now - s.volume.last_reset) := by
    simp [checkedSub, h1]
  have hh : 24 ≤ (now - s.volume.last_reset) / 3600 := by
    rw [Nat.le_div_iff_mul_le (by norm_num)]
    omega
  have hmin : min ((now - s.volume.last_reset) / 3600) 24 = 24 :=
    Nat.min_eq_right hh
  have hsat : satMul s.volume.current_volume (100 - 24) =
      s.volume.current_volume * 76 := by
    simp [satMul]
    omega
  simp [PoolState.decay_volume, hsub, okOr, bind, Except.bind, checkedDiv, hmin, hsat]
  intro h0
  omega

/-- Witness: the 24-hour-idle decay pool steps from 100 units of volume to
`100 * 76 / 100 = 76`. -/
theorem decay_volume_full_day_step_witness :
    decayPool.decay_volume 86400 = .ok { decayPool with volume :=
      { decayPool.volume with
        current_volume := decayPool.volume.current_volume * 76 / 100
        last_reset := 86400 } } :=
  decay_volume_full_day_step decayPool 86400 (by decide) (by decide) (by decide)

/-- C1: a successful `execute_trade` issues exactly ONE external token
transfer — `amount_in` from the buyer's token account to the pool's token
account. No second transfer moving `amount_out` from the pool back to the
buyer exists on the success path, so the claimed two-transfer shape
(buyer→pool then pool→buyer) does not hold: the scenario trade below
succeeds while its transfer list is the singleton buyer→pool transfer. -/
theorem execute_trade_single_transfer :
    (execute_trade tradePool 7 1000 0 1000100).map (fun r => r.2.2) =
      .ok [⟨Party.buyerAcct, Party.poolAcct, 1000⟩] ∧
    (execute_trade tradePool 7 1000 0 1000100).map (fun r => (r.2.2).length) =
      .ok 1 := by
  decide

/-- C2 (counterexample): in the specified scenario
(`early_trade_fee_bps = 500`, `early_trade_window_seconds = 300`,
`min_trade_size = 100`, `amount_in = 1000` at `pool_start_time + 100`, with
1000000 units of liquidity and permissive limits) the fee is indeed 50, but
`execute_trade` returns `amount_out = 949`, not the claimed 950. -/
theorem scenario_trade_output_not_950 :
    (execute_trade tradePool 7 1000 0 1000100).map
      (fun r => (r.2.1.fee_amount, r.2.1.amount_out)) = .ok (50, 949) ∧
    (949 : Nat) ≠ 950 := by
  decide

/-- C2 (amended): the scenario trade charges `fee_amount = 50` and returns
`amount_out = (1000 - 50) * L / (L + (1000 - 50))` rounded down (949 for
`L = 1000000`): the handler prices the output through the pool-ratio formula
rather than paying out `amount_in - fee`, and that formula yields strictly
less than 950 for every liquidity level. -/
theorem scenario_trade_fee_50_output_floor :
    (execute_trade tradePool 7 1000 0 1000100).map
      (fun r => (r.2.1.fee_amount, r.2.1.amount_out)) =
      .ok (50, 950 * 1000000 / (1000000 + 950)) ∧
    ∀ L : Nat, 950 * L / (L + 950) < 950 := by
  refine ⟨by decide, fun L => ?_⟩
  have h : 0 < L + 950 := by omega
  rw [Nat.div_lt_iff_lt_mul h]
  omega

/-- C3 (counterexample): at `amount_in = 1` (inside the early-trade window of
the scenario pool) the computed fee is `1 = amount_in`, so the fee is NOT
strictly less than `amount_in`; and `execute_trade` does not fail with
`FeeTooHigh` — no such check exists on the trade path — it proceeds and
succeeds with `amount_after_fee = 0` and `amount_out = 0`. -/
theorem fee_equal_to_amount_in_trades_through :
    tradePool.calculate_fee 1 1000100 = .ok (1, 1) ∧
    ¬ (1 < 1) ∧
    (execute_trade tradePool 7 1 0 1000100).map
      (fun r => (r.2.1.fee_amount, r.2.1.amount_out)) = .ok (1, 0) := by
  decide

/-- C5 (counterexample): with a pending update present and the admin calling
strictly before `scheduled_time`, `apply_parameter_update` does not always
fail with `TimelockNotExpired`: while the pool is emergency-paused it fails
with `EmergencyPaused` instead (the admin gate precedes the timelock
check). -/
theorem apply_update_before_timelock_can_fail_emergency_paused :
    pausedPendingPool.pending_update.isSome = true ∧
    (1000100 : Nat) < samplePending.scheduled_time ∧
    apply_parameter_update pausedPendingPool pausedPendingPool.admin 1000100 =
      .error .EmergencyPaused ∧
    ErrorCode.EmergencyPaused ≠ ErrorCode.TimelockNotExpired := by
  decide

/-- C6 (counterexample): `calculate_price_impact` performs no clamp-to-1: a
nonzero `amount_in = 1` against `pool_balance = 20000` rounds down to an
impact of 0 and is returned as 0, not 1. -/
theorem price_impact_zero_not_clamped :
    tradePool.calculate_price_impact 1 20000 = .ok 0 ∧ (0 : Nat) ≠ 1 := by
  decide

/-- C7: `process_blacklist_operations` performs none of the claimed
membership/identity checks: adding the already-blacklisted address `7`
succeeds and leaves the set unchanged (no `TraderAlreadyBlacklisted`),
adding the admin address `1` succeeds and inserts it (no `InvalidTrader`),
and removing the absent address `9` succeeds as a no-op (no
`TraderNotBlacklisted`) — none of those error variants even exist in the
program's error enum. -/
theorem blacklist_ops_skip_membership_checks :
    process_blacklist_operations blacklistPool [7] .Add = .ok blacklistPool ∧
    process_blacklist_operations blacklistPool [1] .Add =
      .ok { blacklistPool with trader_blacklist := [7, 1] } ∧
    process_blacklist_operations blacklistPool [9] .Remove = .ok blacklistPool ∧
    blacklistPool.admin = 1 ∧
    7 ∈ blacklistPool.trader_blacklist ∧
    9 ∉ blacklistPool.trader_blacklist := by
  decide

/-- C8 (counterexample): a pool idle for exactly 24 hours
(`now - last_reset = 86400`) is NOT fully reset by the decay step: the decay
factor is `100 - min 24 24 = 76`, so 100 units of volume become 76, not 0. -/
theorem decay_after_24h_keeps_76_percent :
    (decayPool.decay_volume 86400).map
      (fun s => (s.volume.current_volume, s.volume.last_reset)) = .ok (76, 86400) ∧
    24 * 3600 ≤ 86400 - decayPool.volume.last_reset ∧
    (76 : Nat) ≠ 0 := by
  decide

/-- C9: none of the four emergency-pause handlers consults `is_finalized`
(the `PoolFinalized` gate lives only in `validate_emergency_action`, which no
handler calls): on a finalized pool, with the emergency admin calling and the
timelock expired, scheduling and applying both pause and resume all succeed
and mutate the pool, instead of failing with `PoolFinalized`. -/
theorem emergency_ops_ignore_finalized :
    finalizedPool.is_finalized = true ∧
    finalizedPausedPool.is_finalized = true ∧
    (schedule_emergency_pause finalizedPool 2 5000).map
      (fun s => s.emergency_action_scheduled_time) = .ok 8600 ∧
    (apply_emergency_pause finalizedPool 2 5000).map
      (fun s => s.is_emergency_paused) = .ok true ∧
    (schedule_emergency_resume finalizedPausedPool 2 5000).map
      (fun s => s.emergency_action_scheduled_time) = .ok 8600 ∧
    (apply_emergency_resume finalizedPausedPool 2 5000).map
      (fun s => s.is_emergency_paused) = .ok false ∧
    validate_emergency_action finalizedPool 2 5000 = .error .PoolFinalized := by
  decide

end HoeDex
